import Mathlib

/-!
Verification of the live session metrics engine of the aura-coach training
view. Every definition below is a shallow embedding of a function in the
training page source (the `TrainingPage` component, the `App` end-of-session
handler, and the audio uplink helpers), with JavaScript numbers modelled as
rationals, JavaScript integers as `Int`/`Nat`, and the single-threaded event
loop as an explicit step function over an event list. `Math.round` and
`Number.toFixed(0)` both round half toward positive infinity, which is
exactly Mathlib `round`; assignment into an `Int16Array` truncates toward
zero and wraps modulo 2 ^ 16, which is `jsTrunc` followed by `toInt16`.
-/

namespace AuraCoach

/-- The shared metrics record of the training view: the `useState` initial
value of the `metrics` object, one field per producer. -/
structure MetricsRecord where
  posture : ℤ
  headTilt : ℤ
  eyeContact : String
  emotion : String
  wpm : ℤ
  fillers : ℕ
  volume : ℚ
  pitch : ℚ
  tone : String
deriving DecidableEq, Repr

/-- Default metrics: the initial value passed to `useState` in the
training view. -/
def initialMetrics : MetricsRecord :=
  { posture := 0, headTilt := 0, eyeContact := "Unknown", emotion := "Detecting...",
    wpm := 0, fillers := 0, volume := 0, pitch := 0, tone := "Neutral" }

/-- A landmark position in normalized image coordinates. -/
structure Pt where
  x : ℚ
  y : ℚ
deriving DecidableEq, Repr

/-- The three landmarks the pose callback reads: left shoulder (index 11),
right shoulder (index 12) and nose (index 0). -/
structure PoseFrame where
  L : Pt
  R : Pt
  nose : Pt
deriving DecidableEq, Repr

/-- First normalization step of the raw shoulder-line angle:
`if (rawTilt > 90) rawTilt -= 180`. -/
def normalizeTilt1 (θ : ℚ) : ℚ :=
  if 90 < θ then θ - 180 else θ

/-- Second normalization step, applied to the result of the first:
`if (rawTilt < -90) rawTilt += 180`. -/
def normalizeTilt (θ : ℚ) : ℚ :=
  if normalizeTilt1 θ < -90 then normalizeTilt1 θ + 180 else normalizeTilt1 θ

/-- The head tilt written to the record: the normalized raw angle rounded to
the nearest integer degree (`Number(rawTilt.toFixed(0))`, which rounds half
toward positive infinity, matching Mathlib `round`). -/
def headTiltOf (θ : ℚ) : ℤ :=
  round (normalizeTilt θ)

/-- Body of `pose.onResults` when all three landmarks are present. The raw
shoulder-line angle comes from `Math.atan2` scaled to degrees; that platform
trigonometric function is passed in as the parameter `atan2deg`, everything
after it is translated literally: shoulder tilt, posture score with floor 0,
head-tilt normalization, and the eye-contact threshold `|nose.x - 0.5| <
0.05`. Only the posture, head-tilt and eye-contact fields are written. -/
def applyPose (atan2deg : ℚ → ℚ → ℚ) (m : MetricsRecord) (fr : PoseFrame) : MetricsRecord :=
  let shoulderTilt := (fr.R.y - fr.L.y) * 100
  let postureScore := max 0 (100 - |shoulderTilt| * 4)
  let rawTilt := atan2deg (fr.R.y - fr.L.y) (fr.R.x - fr.L.x)
  { m with posture := round postureScore,
           headTilt := headTiltOf rawTilt,
           eyeContact := if |fr.nose.x - 1/2| < 1/20 then "Good" else "Looking Away" }

/-- `emotion.charAt(0).toUpperCase() + emotion.slice(1)`. -/
def capitalizeFirst (s : String) : String :=
  match s.data with
  | [] => ""
  | c :: cs => String.mk (c.toUpper :: cs)

/-- Lower-casing of the concatenated transcript (`transcript.toLowerCase()`),
character by character. -/
def lowerString (t : String) : String :=
  String.mk (t.data.map Char.toLower)

/-- Splitting on runs of whitespace and dropping empty tokens
(`transcript.split(whitespace).filter(Boolean)`), as a structural recursion
over the character list with an accumulator for the current token. -/
def wordsAux : List Char → List Char → List String
  | [], [] => []
  | [], acc => [String.mk acc.reverse]
  | c :: cs, acc =>
    if c.isWhitespace then
      match acc with
      | [] => wordsAux cs []
      | _ => String.mk acc.reverse :: wordsAux cs []
    else wordsAux cs (c :: acc)

/-- Tokens of one recognition batch: lower-case the transcript, split on
whitespace, keep non-empty tokens. -/
def batchTokens (t : String) : List String :=
  wordsAux (lowerString t).data []

/-- The fixed filler lexicon of the speech handler. The two-word entry can
never match a single whitespace-split token, exactly as in the source. -/
def fillerLexicon : List String :=
  ["um", "uh", "like", "basically", "you know"]

/-- Number of tokens of a batch that are in the filler lexicon. -/
def countRecognizedFillers (ws : List String) : ℕ :=
  (ws.filter (fun w => fillerLexicon.contains w)).length

/-- Cumulative accumulators of the speech-recognition closure:
`wordCount` and `fillerCount`. -/
structure SpeechAcc where
  wordCount : ℕ
  fillerCount : ℕ
deriving DecidableEq, Repr

/-- The words-per-minute value the handler computes for a batch: cumulative
word count after the batch divided by elapsed minutes, rounded, or 0 when no
time has elapsed. -/
def batchWpm (acc : SpeechAcc) (t : String) (e : ℚ) : ℤ :=
  if 0 < e then round (((acc.wordCount + (batchTokens t).length : ℕ) : ℚ) / e) else 0

/-- The accumulators after one batch: in the source both `wordCount` and
`fillerCount` are incremented before the noise guard runs. -/
def batchAcc (acc : SpeechAcc) (t : String) : SpeechAcc :=
  ⟨acc.wordCount + (batchTokens t).length,
   acc.fillerCount + countRecognizedFillers (batchTokens t)⟩

/-- Body of `recognition.onresult` for one result batch: the accumulators are
incremented first, the words-per-minute value is computed from the already
incremented word count (`batchWpm`), and only then does the noise guard
`if (words.length < 3 && wpm < 40) return` decide whether the displayed
metrics are updated. Returns the new accumulators and the new record. -/
def onSpeechResult (acc : SpeechAcc) (disp : MetricsRecord) (t : String) (e : ℚ) :
    SpeechAcc × MetricsRecord :=
  if (batchTokens t).length < 3 ∧ batchWpm acc t e < 40 then (batchAcc acc t, disp)
  else (batchAcc acc t,
        { disp with wpm := batchWpm acc t e, fillers := (batchAcc acc t).fillerCount })

/-- Truncation toward zero, the integer conversion JavaScript applies when a
number is stored into an element of an `Int16Array`. -/
def jsTrunc (q : ℚ) : ℤ :=
  if 0 ≤ q then ⌊q⌋ else ⌈q⌉

/-- Wrap of an integer into the signed 16-bit range, the second half of the
`Int16Array` conversion. -/
def toInt16 (z : ℤ) : ℤ :=
  (z + 32768) % 65536 - 32768

/-- The sample conversion of `processor.onaudioprocess`:
`pcm16[i] = input[i] * 0x7fff` stores the truncated, wrapped value of
`x * 32767`. -/
def pcmOfSample (x : ℚ) : ℤ :=
  toInt16 (jsTrunc (x * 32767))

/-- Conversion as worded by the specification, for comparison:
`round(x * 32767)`. -/
def specPcmRound (x : ℚ) : ℤ :=
  round (x * 32767)

/-- The live-tips block of the render: one fixed-threshold tip per metric,
independent of the others. -/
def liveTips (m : MetricsRecord) : List String :=
  (if m.posture < 60 then ["Straighten your posture"] else []) ++
  (if m.eyeContact ≠ "Good" then ["Maintain eye contact"] else []) ++
  (if m.volume < 10 then ["Speak louder"] else []) ++
  (if m.fillers > 5 then ["Reduce filler words"] else []) ++
  (if m.tone = "Energetic" then ["Great energy!"] else [])

/-- Session lifecycle of the specification; the source keeps only the boolean
`isSessionActive`, whose value is `phase = Active`, but the model
distinguishes the terminal `Ended` phase from the initial `Idle` one. -/
inductive Phase
  | Idle
  | Active
  | Ended
deriving DecidableEq, Repr

/-- The callbacks the host event loop can deliver to the training view, each
event one callback body. Asynchronous detector work is split into its
dispatch (`frame`, `tick`) and its completion (`poseDone`, `classDone`),
because between the two the session toggle may run. -/
inductive Ev
  /-- The session button: `handleSessionToggle`, carrying the identifier
  minted when it starts a session. -/
  | toggle (freshId : String)
  /-- `camera.onFrame`: dispatches `pose.send` only while the session is
  active. -/
  | frame
  /-- `pose.onResults` for a dispatched frame; `none` models missing
  landmarks, for which the update is skipped. -/
  | poseDone (res : Option PoseFrame)
  /-- One `emotionInterval` timer tick: starts a classification if the
  session is active and the video element is ready. -/
  | tick
  /-- Completion of a started classification; `none` models no detections. -/
  | classDone (res : Option String)
  /-- `recognition.onresult` with the batch transcript and the elapsed
  minutes since the recognition started. -/
  | speech (transcript : String) (elapsedMinutes : ℚ)
  /-- Change of `videoEl.readyState` across the readiness threshold. -/
  | setReady (b : Bool)
deriving DecidableEq

/-- State of the training view as far as the metrics pipeline is concerned:
lifecycle phase, the shared record, the speech accumulators, the numbers of
in-flight pose inferences and emotion classifications, video readiness and
the client-minted session identifier. -/
structure TrainState where
  phase : Phase
  metrics : MetricsRecord
  acc : SpeechAcc
  pendingPose : ℕ
  pendingEmotion : ℕ
  videoReady : Bool
  sessionId : Option String
deriving DecidableEq, Repr

/-- Initial state of a freshly mounted training view. -/
def initState : TrainState :=
  { phase := Phase.Idle, metrics := initialMetrics, acc := ⟨0, 0⟩,
    pendingPose := 0, pendingEmotion := 0, videoReady := false, sessionId := none }

/-- One callback of the event loop. Faithful points: the toggle that starts a
session mints an identifier and creates fresh speech accumulators but does
not touch the metrics record; `camera.onFrame` and the emotion tick check
`isSessionActive` at dispatch time only; `pose.onResults` and the
continuation after the awaited classification write the record with no
further phase check, so completions of work dispatched before the session
ended still write. -/
def step (atan2deg : ℚ → ℚ → ℚ) (s : TrainState) (e : Ev) : TrainState :=
  match e with
  | Ev.toggle freshId =>
    match s.phase with
    | Phase.Active => { s with phase := Phase.Ended }
    | _ => { s with phase := Phase.Active, sessionId := some freshId, acc := ⟨0, 0⟩ }
  | Ev.frame =>
    if s.phase = Phase.Active then { s with pendingPose := s.pendingPose + 1 } else s
  | Ev.poseDone res =>
    if s.pendingPose = 0 then s
    else
      match res with
      | some fr => { s with pendingPose := s.pendingPose - 1,
                            metrics := applyPose atan2deg s.metrics fr }
      | none => { s with pendingPose := s.pendingPose - 1 }
  | Ev.tick =>
    if s.phase = Phase.Active ∧ s.videoReady = true then
      { s with pendingEmotion := s.pendingEmotion + 1 }
    else s
  | Ev.classDone res =>
    if s.pendingEmotion = 0 then s
    else
      match res with
      | some label => { s with pendingEmotion := s.pendingEmotion - 1,
                               metrics := { s.metrics with emotion := capitalizeFirst label } }
      | none => { s with pendingEmotion := s.pendingEmotion - 1 }
  | Ev.speech t e =>
    if s.phase = Phase.Active then
      { s with acc := (onSpeechResult s.acc s.metrics t e).1,
               metrics := (onSpeechResult s.acc s.metrics t e).2 }
    else s
  | Ev.setReady b => { s with videoReady := b }

/-- The state of the training view after a list of callbacks, from the
initial mount. -/
def run (atan2deg : ℚ → ℚ → ℚ) (evs : List Ev) : TrainState :=
  evs.foldl (step atan2deg) initState

/-- One platform resource of the audio uplink: whether the React ref still
holds it, whether its release operation has run, and whether that operation
throws when invoked. -/
structure Res where
  present : Bool
  released : Bool
  failOnRelease : Bool
deriving DecidableEq, Fintype, Repr

/-- The four refs torn down by `stopAudioStreaming`: the socket, the capture
stream, the script processor and the audio context. -/
structure AudioRefs where
  ws : Res
  stream : Res
  processor : Res
  ctx : Res
deriving DecidableEq, Fintype, Repr

/-- One optional-chaining release step such as `wsRef.current?.close()`:
absent ref is a no-op, a present ref either releases or throws. The boolean
result is false exactly when the step threw. -/
def tryRelease (r : Res) : Res × Bool :=
  if r.present then
    if r.failOnRelease then (r, false) else ({ r with released := true }, true)
  else (r, true)

/-- The `finally` block: the ref is cleared whatever happened before. -/
def clearRef (r : Res) : Res :=
  { r with present := false }

/-- `stopAudioStreaming`: the four release steps run sequentially inside one
`try` block, so a throwing step makes control jump to `catch` and the later
steps never run; the `finally` block then clears all four refs. The function
itself always returns (the `catch` swallows the exception). -/
def stopAudioStreaming (w : AudioRefs) : AudioRefs :=
  let ws1 := tryRelease w.ws
  let st1 := if ws1.2 then tryRelease w.stream else (w.stream, false)
  let pr1 := if st1.2 then tryRelease w.processor else (w.processor, false)
  let cx1 := if pr1.2 then tryRelease w.ctx else (w.ctx, false)
  ⟨clearRef ws1.1, clearRef st1.1, clearRef pr1.1, clearRef cx1.1⟩

/-- The recognition ref: whether it is set and whether `stop()` has been
called on the platform recognizer. -/
structure RecRefs where
  recPresent : Bool
  recStopped : Bool
deriving DecidableEq, Fintype, Repr

/-- `stopSpeechRecognition`: if the ref is set, stop the recognizer and clear
the ref; otherwise do nothing. -/
def stopSpeechRecognition (r : RecRefs) : RecRefs :=
  if r.recPresent then ⟨false, true⟩ else r

/-- A body POSTed to the session-log endpoint: the metrics, with the
session identifier spread in when the sender had one. -/
structure LogPayload where
  metrics : MetricsRecord
  session_id : Option String
deriving DecidableEq, Repr

/-- The slice of the App component the end-of-session flow touches: the
visible view, the stored session data and the stored session identifier. -/
structure AppView where
  view : String
  sessionData : MetricsRecord
  appSessionId : Option String
deriving DecidableEq, Repr

/-- The session-log service as the client observes it: whether requests get
through, and the identifier the service mints for the k-th request. -/
structure LogService where
  reachable : Bool
  mintId : ℕ → String

/-- `handleEndSession` in the App component: POST the received payload to the
session-log endpoint; on success store the metrics and the freshly returned
identifier and switch to the report view; on failure alert and change
nothing. Returns the new App state and the requests attempted. -/
def handleEndSession (srv : LogService) (reqIdx : ℕ) (app : AppView) (payload : LogPayload) :
    AppView × List LogPayload :=
  if srv.reachable then
    ({ view := "report", sessionData := payload.metrics, appSessionId := some (srv.mintId reqIdx) },
     [payload])
  else (app, [payload])

/-- Observable outcome of ending a session: final App state, the list of
bodies POSTed to the session-log endpoint in order, the session-active flag
of the training view, and its stored session identifier. -/
structure EndOutcome where
  app : AppView
  requests : List LogPayload
  isSessionActive : Bool
  trainSessionId : Option String

/-- The end branch of `handleSessionToggle` composed with the
`onEndSession` callback, which is `handleEndSession` of the App component:
stop recognition and audio, clear the active flag, POST the metrics (with no
identifier) to the session-log endpoint; on success forward the metrics
augmented with the returned identifier to the callback, on failure forward
the bare metrics; the callback POSTs its payload to the same endpoint
again. -/
def handleSessionToggleEnd (srv : LogService) (m : MetricsRecord) (app : AppView)
    (prevId : Option String) : EndOutcome :=
  if srv.reachable then
    let sid := srv.mintId 0
    let r := handleEndSession srv 1 app ⟨m, some sid⟩
    ⟨r.1, ⟨m, none⟩ :: r.2, false, some sid⟩
  else
    let r := handleEndSession srv 1 app ⟨m, none⟩
    ⟨r.1, ⟨m, none⟩ :: r.2, false, prevId⟩

/-- Range of the normalized (pre-rounding) tilt for raw angles in
(-180, 180]. -/
theorem normalizeTilt_mem (θ : ℚ) (h1 : -180 < θ) (h2 : θ ≤ 180) :
    -90 ≤ normalizeTilt θ ∧ normalizeTilt θ ≤ 90 := by
  unfold normalizeTilt normalizeTilt1
  split_ifs <;> constructor <;> linarith

/-- Claim C8: for every raw shoulder-line angle θ in (-180, 180], the
normalization (subtract 180 if above 90, then add 180 if below -90, then
round to the nearest integer degree) yields a head tilt in [-90, 90]. -/
theorem C8_headTilt_range (θ : ℚ) (h1 : -180 < θ) (h2 : θ ≤ 180) :
    -90 ≤ headTiltOf θ ∧ headTiltOf θ ≤ 90 := by
  obtain ⟨hl, hu⟩ := normalizeTilt_mem θ h1 h2
  unfold headTiltOf
  rw [round_eq]
  constructor
  · apply Int.le_floor.mpr
    push_cast
    linarith
  · have hlt : ⌊normalizeTilt θ + 1 / 2⌋ < 91 := by
      apply Int.floor_lt.mpr
      push_cast
      linarith
    omega

/-- Witness for C8 at the concrete raw angle 135. -/
theorem C8_witness : -90 ≤ headTiltOf 135 ∧ headTiltOf 135 ≤ 90 :=
  C8_headTilt_range 135 (by norm_num) (by norm_num)

/-- Counterexample to claim C5 as stated: at the sample x = 3/65534 the
stored 16-bit value is the truncation 1, while round(x * 32767) = 2, so the
conversion is not rounding. -/
theorem C5_counterexample :
    (-1 : ℚ) ≤ 3 / 65534 ∧ (3 : ℚ) / 65534 ≤ 1 ∧
    pcmOfSample (3 / 65534) = 1 ∧ specPcmRound (3 / 65534) = 2 ∧
    pcmOfSample (3 / 65534) ≠ specPcmRound (3 / 65534) := by
  have hmul : ((3 : ℚ) / 65534) * 32767 = 3 / 2 := by norm_num
  have htr : jsTrunc ((3 : ℚ) / 65534 * 32767) = 1 := by
    rw [jsTrunc, hmul]
    norm_num
  have hpcm : pcmOfSample (3 / 65534) = 1 := by
    rw [pcmOfSample, htr, toInt16]
    norm_num
  have hspec : specPcmRound (3 / 65534) = 2 := by
    rw [specPcmRound, hmul]
    norm_num [round_eq]
  exact ⟨by norm_num, by norm_num, hpcm, hspec, by rw [hpcm, hspec]; decide⟩

/-- Claim C5 (amended): for every float sample x in [-1, 1] the 16-bit value
placed in the uplink frame is the truncation toward zero of x * 32767 (the
JavaScript Int16Array conversion; it does not round), and dividing the sent
value by 32767 still yields a number within one quantization step (1/32767)
of x. -/
theorem C5_roundtrip (x : ℚ) (h1 : -1 ≤ x) (h2 : x ≤ 1) :
    pcmOfSample x = jsTrunc (x * 32767) ∧
    |(pcmOfSample x : ℚ) / 32767 - x| < 1 / 32767 := by
  have hy1 : -32767 ≤ x * 32767 := by linarith
  have hy2 : x * 32767 ≤ 32767 := by linarith
  have ht1 : -32768 ≤ jsTrunc (x * 32767) := by
    rw [jsTrunc]
    split_ifs with h
    · have h0 : (0 : ℤ) ≤ ⌊x * 32767⌋ := Int.le_floor.mpr (by exact_mod_cast h)
      omega
    · have hc : (-32767 : ℤ) ≤ ⌈x * 32767⌉ := by
        have := Int.ceil_le_ceil (α := ℚ) hy1
        simpa using this
      omega
  have ht2 : jsTrunc (x * 32767) ≤ 32767 := by
    rw [jsTrunc]
    split_ifs with h
    · have := Int.floor_le_floor (α := ℚ) hy2
      simpa using this
    · have hc : ⌈x * 32767⌉ ≤ 0 := by
        have := Int.ceil_le_ceil (α := ℚ) (le_of_lt (not_le.mp h))
        simpa using this
      omega
  have hid : pcmOfSample x = jsTrunc (x * 32767) := by
    rw [pcmOfSample, toInt16]
    omega
  have hnear : |(jsTrunc (x * 32767) : ℚ) - x * 32767| < 1 := by
    rw [jsTrunc]
    split_ifs with h
    · rw [abs_sub_lt_iff]
      refine ⟨by linarith [Int.floor_le (x * 32767)], by linarith [Int.sub_one_lt_floor (x * 32767)]⟩
    · rw [abs_sub_lt_iff]
      refine ⟨by linarith [Int.ceil_lt_add_one (x * 32767)], by linarith [Int.le_ceil (x * 32767)]⟩
  refine ⟨hid, ?_⟩
  rw [hid]
  have hrw : (jsTrunc (x * 32767) : ℚ) / 32767 - x =
      ((jsTrunc (x * 32767) : ℚ) - x * 32767) / 32767 := by
    ring
  rw [hrw, abs_div, abs_of_pos (show (0 : ℚ) < 32767 by norm_num),
    div_lt_div_iff_of_pos_right (show (0 : ℚ) < 32767 by norm_num)]
  exact hnear

/-- Witness for C5 at the concrete sample 1/2. -/
theorem C5_roundtrip_witness :
    pcmOfSample (1 / 2) = jsTrunc ((1 / 2 : ℚ) * 32767) ∧
    |(pcmOfSample (1 / 2) : ℚ) / 32767 - 1 / 2| < 1 / 32767 :=
  C5_roundtrip (1 / 2) (by norm_num) (by norm_num)

/-- Unfolded form of the batch handler: the accumulators are incremented
unconditionally, and the guard decides only the displayed record. -/
theorem onSpeechResult_eq (acc : SpeechAcc) (disp : MetricsRecord) (t : String) (e : ℚ) :
    onSpeechResult acc disp t e =
      (⟨acc.wordCount + (batchTokens t).length,
        acc.fillerCount + countRecognizedFillers (batchTokens t)⟩,
       if (batchTokens t).length < 3 ∧ batchWpm acc t e < 40 then disp
       else { disp with wpm := batchWpm acc t e,
                        fillers := acc.fillerCount + countRecognizedFillers (batchTokens t) }) := by
  unfold onSpeechResult batchAcc
  split
  · rfl
  · rfl

/-- Counterexample to claim C1 as stated: the batch "hi yo" at elapsed time
1/10 minute yields 2 tokens and wpm 20, so the guard discards the displayed
update, yet the cumulative word-count accumulator is still incremented from
0 to 2 rather than left as it was. -/
theorem C1_counterexample :
    (batchTokens "hi yo").length = 2 ∧
    batchWpm ⟨0, 0⟩ "hi yo" (1 / 10) = 20 ∧
    (onSpeechResult ⟨0, 0⟩ initialMetrics "hi yo" (1 / 10)).2 = initialMetrics ∧
    (onSpeechResult ⟨0, 0⟩ initialMetrics "hi yo" (1 / 10)).1.wordCount = 2 ∧
    (2 : ℕ) ≠ 0 := by
  have hlen : (batchTokens "hi yo").length = 2 := by decide
  have hfill : countRecognizedFillers (batchTokens "hi yo") = 0 := by decide
  have hwpm : batchWpm ⟨0, 0⟩ "hi yo" (1 / 10) = 20 := by
    rw [batchWpm, hlen]
    norm_num [round_eq]
  refine ⟨hlen, hwpm, ?_, ?_, by decide⟩
  · rw [onSpeechResult_eq, hwpm, hlen]
    norm_num
  · rw [onSpeechResult_eq, hlen]

/-- Claim C1 (amended): when a batch yields fewer than 3 new tokens and the
just-computed wpm is below 40, the displayed wpm and fillers fields are left
exactly as they were, but the cumulative word-count and filler-count
accumulators are still incremented by the counts of the batch; a batch with
2 new tokens and a computed wpm of 40 or more is applied. -/
theorem C1_noise_guard :
    (∀ (acc : SpeechAcc) (disp : MetricsRecord) (t : String) (e : ℚ),
      (batchTokens t).length < 3 → batchWpm acc t e < 40 →
      (onSpeechResult acc disp t e).2 = disp ∧
      (onSpeechResult acc disp t e).1 =
        ⟨acc.wordCount + (batchTokens t).length,
         acc.fillerCount + countRecognizedFillers (batchTokens t)⟩) ∧
    (∀ (acc : SpeechAcc) (disp : MetricsRecord) (t : String) (e : ℚ),
      (batchTokens t).length = 2 → 40 ≤ batchWpm acc t e →
      (onSpeechResult acc disp t e).2 =
        { disp with wpm := batchWpm acc t e,
                    fillers := acc.fillerCount + countRecognizedFillers (batchTokens t) }) := by
  constructor
  · intro acc disp t e hlen hwpm
    rw [onSpeechResult_eq, if_pos ⟨hlen, hwpm⟩]
    exact ⟨rfl, rfl⟩
  · intro acc disp t e hlen hwpm
    rw [onSpeechResult_eq, if_neg]
    rintro ⟨-, hlt⟩
    omega

/-- Witness for C1: the discarded batch "hi yo" (2 tokens, wpm 20) leaves the
record unchanged while the accumulators advance, and the applied batch
"go on" at cumulative word count 38 and elapsed 1 minute (wpm exactly 40)
updates the displayed wpm to 40. -/
theorem C1_noise_guard_witness :
    ((onSpeechResult ⟨0, 0⟩ initialMetrics "hi yo" (1 / 10)).2 = initialMetrics ∧
     (onSpeechResult ⟨0, 0⟩ initialMetrics "hi yo" (1 / 10)).1 = ⟨2, 0⟩) ∧
    (onSpeechResult ⟨38, 0⟩ initialMetrics "go on" 1).2.wpm = 40 := by
  have hlen1 : (batchTokens "hi yo").length = 2 := by decide
  have hfill1 : countRecognizedFillers (batchTokens "hi yo") = 0 := by decide
  have hwpm1 : batchWpm ⟨0, 0⟩ "hi yo" (1 / 10) = 20 := by
    rw [batchWpm, hlen1]
    norm_num [round_eq]
  have hlen2 : (batchTokens "go on").length = 2 := by decide
  have hfill2 : countRecognizedFillers (batchTokens "go on") = 0 := by decide
  have hwpm2 : batchWpm ⟨38, 0⟩ "go on" 1 = 40 := by
    rw [batchWpm, hlen2]
    norm_num [round_eq]
  have h1 := C1_noise_guard.1 ⟨0, 0⟩ initialMetrics "hi yo" (1 / 10)
    (by omega) (by rw [hwpm1]; norm_num)
  have h2 := C1_noise_guard.2 ⟨38, 0⟩ initialMetrics "go on" 1 hlen2 (by rw [hwpm2])
  refine ⟨⟨h1.1, ?_⟩, ?_⟩
  · rw [h1.2, hlen1, hfill1]
  · rw [h2, hwpm2]

/-- Claim C2 (exhibit of the code defect): a classification dispatched by a
tick while the session was active, but completing only after the session
toggled to Ended, still writes the emotion field — after the toggle the phase
is Ended and the emotion still holds its default, and the pending completion
then overwrites it, so a metrics field is written after the session ended. -/
theorem C2_stale_write_after_end :
    (run (fun _ _ => 0) [Ev.toggle "s1", Ev.setReady true, Ev.tick, Ev.toggle "s1"]).phase =
      Phase.Ended ∧
    (run (fun _ _ => 0)
        [Ev.toggle "s1", Ev.setReady true, Ev.tick, Ev.toggle "s1"]).metrics.emotion =
      "Detecting..." ∧
    (run (fun _ _ => 0)
        [Ev.toggle "s1", Ev.setReady true, Ev.tick, Ev.toggle "s1",
         Ev.classDone (some "happy")]).phase = Phase.Ended ∧
    (run (fun _ _ => 0)
        [Ev.toggle "s1", Ev.setReady true, Ev.tick, Ev.toggle "s1",
         Ev.classDone (some "happy")]).metrics.emotion = "Happy" := by
  refine ⟨?_, ?_, ?_, ?_⟩ <;> decide

/-- Counterexample to claim C7 as stated: two consecutive ticks with the
first classification still in flight leave two outstanding classifications,
so the sampler does not keep at most one outstanding classification. -/
theorem C7_counterexample :
    (run (fun _ _ => 0) [Ev.toggle "s1", Ev.setReady true, Ev.tick, Ev.tick]).pendingEmotion =
      2 := by
  decide

/-- Claim C7 (amended): a tick is skipped exactly when the session is not
active or the video element is not ready; there is no in-flight guard, so a
tick firing while the session is active and the video is ready starts a new
classification even when one is already outstanding. -/
theorem C7_tick_no_inflight_guard :
    (∀ (f : ℚ → ℚ → ℚ) (s : TrainState), s.phase = Phase.Active → s.videoReady = true →
      step f s Ev.tick = { s with pendingEmotion := s.pendingEmotion + 1 }) ∧
    (∀ (f : ℚ → ℚ → ℚ) (s : TrainState), ¬(s.phase = Phase.Active ∧ s.videoReady = true) →
      step f s Ev.tick = s) := by
  constructor
  · intro f s h1 h2
    simp only [step, if_pos (And.intro h1 h2)]
  · intro f s h
    simp only [step, if_neg h]

/-- Witness for C7: a tick in the active, video-ready state with one
classification already outstanding raises the outstanding count to two. -/
theorem C7_witness :
    step (fun _ _ => 0) (run (fun _ _ => 0) [Ev.toggle "s1", Ev.setReady true, Ev.tick])
        Ev.tick =
      { run (fun _ _ => 0) [Ev.toggle "s1", Ev.setReady true, Ev.tick] with
        pendingEmotion :=
          (run (fun _ _ => 0) [Ev.toggle "s1", Ev.setReady true, Ev.tick]).pendingEmotion + 1 } :=
  C7_tick_no_inflight_guard.1 (fun _ _ => 0) _ (by decide) (by decide)

/-- Claim C4 (amended): the metrics record holds its defaults when the
training view mounts, but the start transition itself does not reset it — it
only sets the phase, mints the identifier and creates fresh speech
accumulators — so a start after a previously ended session keeps the
previous session metrics. -/
theorem C4_start_no_reset :
    initState.metrics = initialMetrics ∧
    (∀ (f : ℚ → ℚ → ℚ) (s : TrainState) (fid : String), s.phase ≠ Phase.Active →
      (step f s (Ev.toggle fid)).phase = Phase.Active ∧
      (step f s (Ev.toggle fid)).metrics = s.metrics ∧
      (step f s (Ev.toggle fid)).acc = ⟨0, 0⟩) := by
  refine ⟨rfl, ?_⟩
  intro f s fid h
  cases hp : s.phase with
  | Idle => simp [step, hp]
  | Active => exact absurd hp h
  | Ended => simp [step, hp]

/-- Witness for C4: the very first start transition from the mounted state. -/
theorem C4_witness :
    (step (fun _ _ => 0) initState (Ev.toggle "sid")).phase = Phase.Active ∧
    (step (fun _ _ => 0) initState (Ev.toggle "sid")).metrics = initState.metrics ∧
    (step (fun _ _ => 0) initState (Ev.toggle "sid")).acc = ⟨0, 0⟩ :=
  C4_start_no_reset.2 (fun _ _ => 0) initState "sid" (by decide)

/-- Counterexample to claim C4 as stated: run a session, let one pose frame
write posture 92, end the session and start a new one — immediately after the
start transition, before any producer of the new session has run, the record
still shows posture 92, not the default 0, so the start transition did not
reset the record. -/
theorem C4_counterexample :
    (run (fun _ _ => 0)
        [Ev.toggle "a", Ev.frame,
         Ev.poseDone (some ⟨⟨3/10, 2/5⟩, ⟨7/10, 21/50⟩, ⟨49/100, 3/10⟩⟩),
         Ev.toggle "a", Ev.toggle "b"]).phase = Phase.Active ∧
    (run (fun _ _ => 0)
        [Ev.toggle "a", Ev.frame,
         Ev.poseDone (some ⟨⟨3/10, 2/5⟩, ⟨7/10, 21/50⟩, ⟨49/100, 3/10⟩⟩),
         Ev.toggle "a", Ev.toggle "b"]).metrics.posture = 92 ∧
    initialMetrics.posture = 0 := by
  have happ : applyPose (fun _ _ => 0) initialMetrics ⟨⟨3/10, 2/5⟩, ⟨7/10, 21/50⟩, ⟨49/100, 3/10⟩⟩ =
      { initialMetrics with posture := 92, headTilt := 0, eyeContact := "Good" } := by
    unfold applyPose headTiltOf normalizeTilt normalizeTilt1
    norm_num [round_eq, max_def, abs_lt, abs_two, initialMetrics]
  refine ⟨by decide, ?_, rfl⟩
  simp [run, step, initState, happ]

/-- Membership in a conditional tip list with an empty alternative. -/
theorem mem_ite_nil {α : Type} (a : α) (c : Prop) [Decidable c] (l : List α) :
    (a ∈ if c then l else []) ↔ c ∧ a ∈ l := by
  split_ifs with h <;> simp [h]

/-- One step of the event loop never writes the volume, pitch or tone fields
of the record, whoever the producer is. -/
theorem step_stableFields (f : ℚ → ℚ → ℚ) (s : TrainState) (e : Ev)
    (h : s.metrics.volume = 0 ∧ s.metrics.pitch = 0 ∧ s.metrics.tone = "Neutral") :
    (step f s e).metrics.volume = 0 ∧ (step f s e).metrics.pitch = 0 ∧
    (step f s e).metrics.tone = "Neutral" := by
  obtain ⟨h1, h2, h3⟩ := h
  have happ : ∀ (m : MetricsRecord) (fr : PoseFrame),
      (applyPose f m fr).volume = m.volume ∧ (applyPose f m fr).pitch = m.pitch ∧
      (applyPose f m fr).tone = m.tone := by
    intro m fr
    unfold applyPose
    exact ⟨rfl, rfl, rfl⟩
  have hsp : ∀ (acc : SpeechAcc) (disp : MetricsRecord) (t : String) (e' : ℚ),
      (onSpeechResult acc disp t e').2.volume = disp.volume ∧
      (onSpeechResult acc disp t e').2.pitch = disp.pitch ∧
      (onSpeechResult acc disp t e').2.tone = disp.tone := by
    intro acc disp t e'
    unfold onSpeechResult
    split
    · exact ⟨rfl, rfl, rfl⟩
    · exact ⟨rfl, rfl, rfl⟩
  cases e with
  | toggle fid => cases hp : s.phase <;> simp [step, hp, h1, h2, h3]
  | frame => by_cases ha : s.phase = Phase.Active <;> simp [step, ha, h1, h2, h3]
  | poseDone res =>
    rcases res with _ | fr
    · by_cases hp : s.pendingPose = 0 <;> simp [step, hp, h1, h2, h3]
    · by_cases hp : s.pendingPose = 0 <;> simp [step, hp, h1, h2, h3, happ]
  | tick =>
    by_cases hc : s.phase = Phase.Active ∧ s.videoReady = true <;>
      simp [step, hc, h1, h2, h3]
  | classDone res =>
    rcases res with _ | label
    · by_cases hp : s.pendingEmotion = 0 <;> simp [step, hp, h1, h2, h3]
    · by_cases hp : s.pendingEmotion = 0 <;> simp [step, hp, h1, h2, h3]
  | speech t e' => by_cases ha : s.phase = Phase.Active <;> simp [step, ha, h1, h2, h3, hsp]
  | setReady b => simp [step, h1, h2, h3]

/-- Claim C9: in every reachable state of the training view no operation
writes the volume, pitch or tone fields — they keep their initial values 0,
0 and Neutral — so the live tips always contain the speak-louder tip and
never contain the positive-energy tip. -/
theorem C9_fixed_fields (f : ℚ → ℚ → ℚ) (evs : List Ev) :
    (run f evs).metrics.volume = 0 ∧ (run f evs).metrics.pitch = 0 ∧
    (run f evs).metrics.tone = "Neutral" ∧
    "Speak louder" ∈ liveTips (run f evs).metrics ∧
    "Great energy!" ∉ liveTips (run f evs).metrics := by
  have key : (run f evs).metrics.volume = 0 ∧ (run f evs).metrics.pitch = 0 ∧
      (run f evs).metrics.tone = "Neutral" := by
    rw [run]
    have main : ∀ (l : List Ev) (s : TrainState),
        s.metrics.volume = 0 ∧ s.metrics.pitch = 0 ∧ s.metrics.tone = "Neutral" →
        (l.foldl (step f) s).metrics.volume = 0 ∧ (l.foldl (step f) s).metrics.pitch = 0 ∧
        (l.foldl (step f) s).metrics.tone = "Neutral" := by
      intro l
      induction l with
      | nil => intro s hs; simpa using hs
      | cons a tl ih => intro s hs; exact ih _ (step_stableFields f s a hs)
    exact main evs initState ⟨rfl, rfl, rfl⟩
  obtain ⟨h1, h2, h3⟩ := key
  refine ⟨h1, h2, h3, ?_, ?_⟩
  · have hv : (run f evs).metrics.volume < 10 := by rw [h1]; norm_num
    unfold liveTips
    simp only [List.mem_append, mem_ite_nil]
    exact Or.inl (Or.inl (Or.inr ⟨hv, by decide⟩))
  · have ht : ¬((run f evs).metrics.tone = "Energetic") := by rw [h3]; decide
    unfold liveTips
    simp only [List.mem_append, mem_ite_nil, not_or]
    refine ⟨⟨⟨⟨?_, ?_⟩, ?_⟩, ?_⟩, ?_⟩ <;> rintro ⟨hc, hm⟩
    · exact absurd hm (by decide)
    · exact absurd hm (by decide)
    · exact absurd hm (by decide)
    · exact absurd hm (by decide)
    · exact ht hc

/-- Counterexample to claim C3 as stated: with the session-log service
unreachable, the first submission fails, the callback resubmission fails as
well, and the App view stays on the training view — the user does not reach
the report view. -/
theorem C3_counterexample :
    (handleSessionToggleEnd ⟨false, fun _ => "srv"⟩ initialMetrics
        ⟨"training", initialMetrics, none⟩ none).app.view = "training" ∧
    (handleSessionToggleEnd ⟨false, fun _ => "srv"⟩ initialMetrics
        ⟨"training", initialMetrics, none⟩ none).app.view ≠ "report" := by
  constructor
  · rfl
  · decide

/-- Claim C3 (amended): when the final-snapshot submission fails, the session
still ends and the locally-held snapshot is forwarded to the end-of-session
handler with no session identifier attached; that handler however resubmits
the snapshot, and since the service is unreachable this second submission
fails too and the App state — in particular the visible view — is left
unchanged, so the user does not reach the report view. -/
theorem C3_failure_path (srv : LogService) (m : MetricsRecord) (app : AppView)
    (pid : Option String) (h : srv.reachable = false) :
    (handleSessionToggleEnd srv m app pid).isSessionActive = false ∧
    (handleSessionToggleEnd srv m app pid).requests = [⟨m, none⟩, ⟨m, none⟩] ∧
    (handleSessionToggleEnd srv m app pid).app = app := by
  unfold handleSessionToggleEnd handleEndSession
  simp [h]

/-- Witness for C3 at a concrete unreachable service. -/
theorem C3_witness :
    (handleSessionToggleEnd ⟨false, fun _ => "srv"⟩ initialMetrics
        ⟨"training", initialMetrics, none⟩ none).isSessionActive = false ∧
    (handleSessionToggleEnd ⟨false, fun _ => "srv"⟩ initialMetrics
        ⟨"training", initialMetrics, none⟩ none).requests =
      [⟨initialMetrics, none⟩, ⟨initialMetrics, none⟩] ∧
    (handleSessionToggleEnd ⟨false, fun _ => "srv"⟩ initialMetrics
        ⟨"training", initialMetrics, none⟩ none).app = ⟨"training", initialMetrics, none⟩ :=
  C3_failure_path ⟨false, fun _ => "srv"⟩ initialMetrics ⟨"training", initialMetrics, none⟩
    none rfl

/-- Claim C10: when the service is reachable, ending one session POSTs the
final snapshot to the session-log endpoint twice — first the bare metrics
from the training page, then the same metrics augmented with the returned
session identifier from the App end-of-session handler. -/
theorem C10_double_submission (srv : LogService) (m : MetricsRecord) (app : AppView)
    (pid : Option String) (h : srv.reachable = true) :
    (handleSessionToggleEnd srv m app pid).requests =
      [⟨m, none⟩, ⟨m, some (srv.mintId 0)⟩] ∧
    (handleSessionToggleEnd srv m app pid).requests.length = 2 := by
  unfold handleSessionToggleEnd handleEndSession
  simp [h]

/-- Witness for C10 at a concrete reachable service. -/
theorem C10_witness :
    (handleSessionToggleEnd ⟨true, fun _ => "sid"⟩ initialMetrics
        ⟨"training", initialMetrics, none⟩ none).requests =
      [⟨initialMetrics, none⟩, ⟨initialMetrics, some "sid"⟩] ∧
    (handleSessionToggleEnd ⟨true, fun _ => "sid"⟩ initialMetrics
        ⟨"training", initialMetrics, none⟩ none).requests.length = 2 :=
  C10_double_submission ⟨true, fun _ => "sid"⟩ initialMetrics
    ⟨"training", initialMetrics, none⟩ none rfl

/-- Counterexample to claim C6 as stated: when closing the socket throws, the
later steps of the single try block are skipped, so the capture track is not
stopped — its released flag is still false after the call — even though the
ref to it is cleared. -/
theorem C6_counterexample :
    (stopAudioStreaming ⟨⟨true, false, true⟩, ⟨true, false, false⟩, ⟨true, false, false⟩,
        ⟨true, false, false⟩⟩).stream.released = false ∧
    (stopAudioStreaming ⟨⟨true, false, true⟩, ⟨true, false, false⟩, ⟨true, false, false⟩,
        ⟨true, false, false⟩⟩).stream.present = false := by
  decide

/-- Releasing an absent ref is a no-op that does not throw. -/
theorem tryRelease_absent (r : Res) (h : r.present = false) : tryRelease r = (r, true) := by
  unfold tryRelease
  rw [h]
  simp

/-- Clearing an already absent ref changes nothing. -/
theorem clearRef_absent (r : Res) (h : r.present = false) : clearRef r = r := by
  obtain ⟨p, q, f⟩ := r
  dsimp only at h
  subst h
  rfl

/-- After the teardown every ref is cleared, whatever happened inside the
try block. -/
theorem stopAudioStreaming_present (w : AudioRefs) :
    (stopAudioStreaming w).ws.present = false ∧
    (stopAudioStreaming w).stream.present = false ∧
    (stopAudioStreaming w).processor.present = false ∧
    (stopAudioStreaming w).ctx.present = false :=
  ⟨rfl, rfl, rfl, rfl⟩

/-- The teardown is the identity on a state whose refs are all cleared. -/
theorem stopAudioStreaming_absorb (v : AudioRefs) (h1 : v.ws.present = false)
    (h2 : v.stream.present = false) (h3 : v.processor.present = false)
    (h4 : v.ctx.present = false) : stopAudioStreaming v = v := by
  obtain ⟨a, b, c, d⟩ := v
  dsimp only at h1 h2 h3 h4
  simp [stopAudioStreaming, tryRelease_absent _ h1, tryRelease_absent _ h2,
    tryRelease_absent _ h3, tryRelease_absent _ h4, clearRef_absent _ h1,
    clearRef_absent _ h2, clearRef_absent _ h3, clearRef_absent _ h4]

/-- Claim C6 (amended): the audio teardown and the recognition stop never
throw, are idempotent, are safe on a never- or partially-started pipeline,
and always clear every ref; when no step throws every present handle is
released, but a step that throws skips the remaining steps of the try
block, so handles after the throwing step are left unreleased (only their
refs are cleared). -/
theorem C6_teardown :
    (∀ w : AudioRefs, stopAudioStreaming (stopAudioStreaming w) = stopAudioStreaming w) ∧
    (∀ w : AudioRefs, (stopAudioStreaming w).ws.present = false ∧
      (stopAudioStreaming w).stream.present = false ∧
      (stopAudioStreaming w).processor.present = false ∧
      (stopAudioStreaming w).ctx.present = false) ∧
    (∀ w : AudioRefs, w.ws.failOnRelease = false → w.stream.failOnRelease = false →
      w.processor.failOnRelease = false → w.ctx.failOnRelease = false →
      (w.ws.present = true → (stopAudioStreaming w).ws.released = true) ∧
      (w.stream.present = true → (stopAudioStreaming w).stream.released = true) ∧
      (w.processor.present = true → (stopAudioStreaming w).processor.released = true) ∧
      (w.ctx.present = true → (stopAudioStreaming w).ctx.released = true)) ∧
    (∀ w : AudioRefs, w.ws.present = true → w.ws.failOnRelease = true →
      (stopAudioStreaming w).stream.released = w.stream.released ∧
      (stopAudioStreaming w).processor.released = w.processor.released ∧
      (stopAudioStreaming w).ctx.released = w.ctx.released) ∧
    (∀ r : RecRefs, stopSpeechRecognition (stopSpeechRecognition r) = stopSpeechRecognition r ∧
      (stopSpeechRecognition r).recPresent = false) := by
  refine ⟨?_, ?_, ?_, ?_, ?_⟩
  · intro w
    obtain ⟨h1, h2, h3, h4⟩ := stopAudioStreaming_present w
    exact stopAudioStreaming_absorb _ h1 h2 h3 h4
  · exact stopAudioStreaming_present
  · intro w hf1 hf2 hf3 hf4
    obtain ⟨⟨p1, r1, f1⟩, ⟨p2, r2, f2⟩, ⟨p3, r3, f3⟩, ⟨p4, r4, f4⟩⟩ := w
    dsimp only at hf1 hf2 hf3 hf4
    subst hf1
    subst hf2
    subst hf3
    subst hf4
    revert p1 r1 p2 r2 p3 r3 p4 r4
    decide
  · intro w hp hf
    obtain ⟨⟨p1, r1, f1⟩, ⟨p2, r2, f2⟩, ⟨p3, r3, f3⟩, ⟨p4, r4, f4⟩⟩ := w
    dsimp only at hp hf
    subst hp
    subst hf
    exact ⟨rfl, rfl, rfl⟩
  · intro r
    obtain ⟨p, q⟩ := r
    cases p <;> exact ⟨rfl, rfl⟩

/-- Witness for C6: a fully started pipeline with no failing step has its
socket released after the first call. -/
theorem C6_witness :
    (stopAudioStreaming ⟨⟨true, false, false⟩, ⟨true, false, false⟩, ⟨true, false, false⟩,
        ⟨true, false, false⟩⟩).ws.released = true :=
  (C6_teardown.2.2.1 ⟨⟨true, false, false⟩, ⟨true, false, false⟩, ⟨true, false, false⟩,
      ⟨true, false, false⟩⟩ rfl rfl rfl rfl).1 rfl

end AuraCoach
